import Mathlib

/-!
Shallow embedding of the gcs-compressor program (src/main.go and
src/core/compressor.go) and proofs about its event-driven pipeline.

External services (the object store and the message transport) are modelled
as oracles: each invocation of a pipeline step receives the responses the
services would give as explicit inputs, and the embedding mirrors the Go
control flow over those responses.  Every operation additionally produces a
trace of the externally visible events it performed, so ordering properties
can be stated about the trace.
-/

namespace GCSCompressor

/-- Go error values as they appear in this program.  `wrap` models
`fmt.Errorf("...: %w", err)` (unwrappable via `errors.Unwrap`); `wrapOpaque`
models `fmt.Errorf("...: %v", err)` (not unwrappable); `canceled` is
`context.Canceled`, `deadlineExceeded` is `context.DeadlineExceeded`,
`notFound` is the storage not-found error and `errorString` any other
plain error. -/
inductive GoError where
  | canceled
  | deadlineExceeded
  | notFound
  | errorString (msg : String)
  | wrap (msg : String) (inner : GoError)
  | wrapOpaque (msg : String) (inner : GoError)
  deriving DecidableEq, Repr

/-- Go `errors.Unwrap`: only a `%w`-wrapped error exposes its inner error. -/
def goUnwrap : GoError → Option GoError
  | .wrap _ inner => some inner
  | _ => none

/-- Object metadata returned by `ObjectHandle.Attrs` (size, content type). -/
structure ObjAttrs where
  size : Int
  contentType : String
  deriving DecidableEq, Repr

/-- Go stdlib `gzip.NewWriterLevel`: the writer is `nil` (and an error is
returned) exactly when the level is outside
`HuffmanOnly (-2) .. BestCompression (9)`. -/
def gzipNewWriterLevel (level : Int) : Option Int :=
  if level < -2 ∨ level > 9 then none else some level

instance {ε α : Type} [DecidableEq ε] [DecidableEq α] :
    DecidableEq (Except ε α) := fun a b =>
  match a, b with
  | .ok x, .ok y =>
      if h : x = y then isTrue (by rw [h]) else isFalse (by simp [h])
  | .error x, .error y =>
      if h : x = y then isTrue (by rw [h]) else isFalse (by simp [h])
  | .ok _, .error _ => isFalse (by simp)
  | .error _, .ok _ => isFalse (by simp)

/-- Oracle for one invocation of `Compress` (src/core/compressor.go:75-132):
the responses of the external storage service, in the order the code
consults it. -/
structure CompressEnv where
  compressionLevel : Int
  srcReaderErr : Option GoError
  srcAttrs : Except GoError ObjAttrs
  dstAttrsBefore : Except GoError ObjAttrs
  copyResult : Except GoError Int
  dstAttrsAfter : Except GoError ObjAttrs
  deriving DecidableEq, Repr

/-- Externally visible storage operations performed by `Compress`, in
program order. -/
inductive CompressEvent where
  | openSrcReader
  | fetchSrcAttrs
  | checkDstExists
  | openDstWriter
  | copyBytes
  | fetchDstAttrs
  deriving DecidableEq, Repr

/-- Result of one `Compress` call.  `nilPanic` marks the nil-pointer
dereference that follows a discarded `gzip.NewWriterLevel` error. -/
inductive CompressOutcome where
  | ok (bytesProcessed : Int) (ratioOut : ℚ)
  | err (e : GoError)
  | nilPanic
  deriving DecidableEq, Repr

/-- Does this event write to (or open a writer on) the destination object? -/
def writesDestination : CompressEvent → Bool
  | .openDstWriter => true
  | .copyBytes => true
  | _ => false

/-- Method `dstObjectExists` (src/core/compressor.go:134-137): fetch the
destination attrs and report existence as `err == nil`. -/
def dstObjectExists (attrsResult : Except GoError ObjAttrs) : Bool :=
  match attrsResult with
  | .ok _ => true
  | .error _ => false

/-- Method `Compress` (src/core/compressor.go:75-132): open the source
reader, fetch source attrs, guard on destination existence, open the
destination writer, wrap it in a gzip writer at the configured level
(discarding the construction error), stream-copy, then re-fetch destination
attrs and compute the reported compression ratio.  Returns the outcome and
the trace of storage operations performed. -/
def Compress (env : CompressEnv) : CompressOutcome × List CompressEvent :=
  match env.srcReaderErr with
  | some e => (.err (.wrap "failed to open source object" e), [.openSrcReader])
  | none =>
    match env.srcAttrs with
    | .error e =>
        (.err (.wrap "cannot determine source object size" e),
          [.openSrcReader, .fetchSrcAttrs])
    | .ok srcObjectAttrs =>
      if dstObjectExists env.dstAttrsBefore then
        (.err (.errorString "destination object exists already"),
          [.openSrcReader, .fetchSrcAttrs, .checkDstExists])
      else
        match gzipNewWriterLevel env.compressionLevel with
        | none =>
            (.nilPanic,
              [.openSrcReader, .fetchSrcAttrs, .checkDstExists, .openDstWriter])
        | some _ =>
          match env.copyResult with
          | .error e =>
              (.err (.wrap "failed to compress and upload object" e),
                [.openSrcReader, .fetchSrcAttrs, .checkDstExists,
                  .openDstWriter, .copyBytes])
          | .ok n =>
            match env.dstAttrsAfter with
            | .error e =>
                (.err (.wrap "failed to read destination object metadata" e),
                  [.openSrcReader, .fetchSrcAttrs, .checkDstExists,
                    .openDstWriter, .copyBytes, .fetchDstAttrs])
            | .ok dstObjectAttrs =>
              let ratioOut : ℚ :=
                if dstObjectAttrs.size > 0 then
                  (srcObjectAttrs.size : ℚ) / (dstObjectAttrs.size : ℚ)
                else 0
              (.ok n ratioOut,
                [.openSrcReader, .fetchSrcAttrs, .checkDstExists,
                  .openDstWriter, .copyBytes, .fetchDstAttrs])

/-- Method `Delete` (src/core/compressor.go:139-149): delete the source
object, wrapping a failure with `%w`. -/
def Delete (deleteErr : Option GoError) : Option GoError :=
  deleteErr.map (fun e => .wrap "error deleting source file" e)

/-- Struct `WorkflowContext` (src/core/compressor.go:16-21): the Job record
carried from the dispatcher to a worker.  Attributes are the message's
string-to-string mapping, data its raw payload bytes. -/
structure WorkflowContext where
  workerName : String := ""
  objectName : String
  originalMessageAttributes : List (String × String)
  originalMessageData : List Nat
  deriving DecidableEq, Repr

/-- Go map lookup on a string-keyed attribute map: a missing key yields
the empty string. -/
def lookupAttr (attrs : List (String × String)) (key : String) : String :=
  match attrs.find? (fun p => p.1 == key) with
  | some p => p.2
  | none => ""

/-- Auxiliary for substring search over character lists. -/
def strContainsAux (needle : List Char) : List Char → Bool
  | [] => needle.isEmpty
  | c :: rest => needle.isPrefixOf (c :: rest) || strContainsAux needle rest

/-- Go `strings.Contains s sub`: does `sub` occur as a substring of `s`? -/
def strContains (s sub : String) : Bool :=
  strContainsAux sub.toList s.toList

/-- A delivered transport message: attribute mapping plus opaque payload. -/
structure PubSubMessage where
  attributes : List (String × String)
  data : List Nat
  deriving DecidableEq, Repr

/-- Externally visible actions of the dispatcher's message handler, in
program order. -/
inductive DispatchEvent where
  | ack
  | enqueue (job : WorkflowContext)
  deriving DecidableEq, Repr

/-- Receive callback of the dispatcher (src/main.go:149-190): filter on
bucket, object name, the temporary-file marker and event type, acknowledge,
and enqueue the accepted message as a Job. -/
def receiveHandler (sourceBucketName : String) (msg : PubSubMessage) :
    List DispatchEvent :=
  let bucketId := lookupAttr msg.attributes "bucketId"
  if bucketId != sourceBucketName then [.ack]
  else
    let objectId := lookupAttr msg.attributes "objectId"
    if objectId == "" then [.ack]
    else if objectId == "" || strContains objectId "dax-tmp" then [.ack]
    else
      let eventType := lookupAttr msg.attributes "eventType"
      if eventType != "OBJECT_FINALIZE" then [.ack]
      else
        [.ack, .enqueue { objectName := objectId,
                          originalMessageAttributes := msg.attributes,
                          originalMessageData := msg.data }]

/-- Acceptance predicate stated from the spec's four checks: matching bucket
attribute, non-empty object name, no temporary-file marker, and the
object-finalize event type. -/
def acceptedMessage (sourceBucketName : String) (msg : PubSubMessage) : Bool :=
  lookupAttr msg.attributes "bucketId" == sourceBucketName
    && lookupAttr msg.attributes "objectId" != ""
    && !strContains (lookupAttr msg.attributes "objectId") "dax-tmp"
    && lookupAttr msg.attributes "eventType" == "OBJECT_FINALIZE"

/-- The Job the dispatcher constructs from an accepted message
(src/main.go:185-189). -/
def jobOfMessage (msg : PubSubMessage) : WorkflowContext :=
  { objectName := lookupAttr msg.attributes "objectId"
    originalMessageAttributes := msg.attributes
    originalMessageData := msg.data }

/-- Recognizer for the acknowledgment event. -/
def isAck : DispatchEvent → Bool
  | .ack => true
  | _ => false

/-- Recognizer for the enqueue event. -/
def isEnqueue : DispatchEvent → Bool
  | .enqueue _ => true
  | _ => false

/-- The cancellation scopes of the process: the root scope (`mainCtx`), the
worker-pool scope (`workerCtx`) and a per-job scope. -/
inductive Scope where
  | root
  | workerPool
  | perJob
  deriving DecidableEq, Repr

/-- A republish of a message onto the recovery topic, with the deadline the
publish context carries and the scope that deadline is derived from. -/
structure PublishAction where
  attributes : List (String × String)
  payload : List Nat
  timeoutSeconds : Nat
  parentScope : Scope
  deriving DecidableEq, Repr

/-- Function `handleWorkerError` (src/main.go:239-264): log, and republish
the Job's original attributes and payload iff the cause is `context.Canceled`
or unwraps (one level) to it; the publish context is `mainCtx` bounded by
5 seconds. -/
def handleWorkerError (cdata : WorkflowContext) (cause : GoError) :
    Option PublishAction :=
  if cause == .canceled || goUnwrap cause == some .canceled then
    some { attributes := cdata.originalMessageAttributes
           payload := cdata.originalMessageData
           timeoutSeconds := 5
           parentScope := .root }
  else
    none

/-- Oracle for one Job executed by a worker: the outcome of the workflow
construction, the `Compress` oracle, and the deletion outcome. -/
structure WorkerJobEnv where
  newWorkflowErr : Option GoError
  compressEnv : CompressEnv
  deleteErr : Option GoError
  deriving DecidableEq, Repr

/-- Steps a worker performs for one Job, in program order. -/
inductive WorkerEvent where
  | newWorkflowCall
  | compressCall
  | deleteCall
  | handleErrorCall (cdata : WorkflowContext) (cause : GoError)
  | nilPanicked
  | logFinished
  deriving DecidableEq, Repr

/-- The per-job context data a worker stamps onto the Job
(src/main.go:201-209): the worker's display name plus the Job's fields. -/
def workerContextData (id : Nat) (job : WorkflowContext) : WorkflowContext :=
  { workerName := "[worker-" ++ toString id ++ "]"
    objectName := job.objectName
    originalMessageAttributes := job.originalMessageAttributes
    originalMessageData := job.originalMessageData }

/-- One iteration of `worker` (src/main.go:199-237) on a dequeued Job:
construct the workflow, `Compress`, then on success `Delete`; any failure
goes to `handleWorkerError` and ends the iteration.  `NewWorkflow` wraps its
cause with `%v` (src/core/compressor.go:39), i.e. opaquely. -/
def runJob (id : Nat) (job : WorkflowContext) (env : WorkerJobEnv) :
    List WorkerEvent :=
  match env.newWorkflowErr with
  | some e =>
      [.newWorkflowCall,
        .handleErrorCall (workerContextData id job)
          (.wrapOpaque "failed to create GCS client" e)]
  | none =>
    match (Compress env.compressEnv).1 with
    | .nilPanic => [.newWorkflowCall, .compressCall, .nilPanicked]
    | .err e =>
        [.newWorkflowCall, .compressCall,
          .handleErrorCall (workerContextData id job) e]
    | .ok _ _ =>
      match Delete env.deleteErr with
      | some e =>
          [.newWorkflowCall, .compressCall, .deleteCall,
            .handleErrorCall (workerContextData id job) e]
      | none => [.newWorkflowCall, .compressCall, .deleteCall, .logFinished]

/-- State of the shutdown coordinator: seconds elapsed since the first
signal, and which scopes have been cancelled. -/
structure ShutdownState where
  elapsedSeconds : Nat
  workerScopeCancelled : Bool
  rootScopeCancelled : Bool
  deriving DecidableEq, Repr

/-- The primitive statements of the signal-handling goroutine. -/
inductive ShutdownStep where
  | cancelWorkerScope
  | sleepSeconds (n : Nat)
  | cancelRootScope
  deriving DecidableEq, Repr

/-- Body of the goroutine in `shutdownSignal` (src/main.go:271-282), run
after the first interrupt or termination signal: cancel the worker-pool
scope, sleep 7 seconds, cancel the root scope. -/
def shutdownProgram : List ShutdownStep :=
  [.cancelWorkerScope, .sleepSeconds 7, .cancelRootScope]

/-- Effect of one shutdown statement on the coordinator state. -/
def shutdownStepRun (s : ShutdownState) : ShutdownStep → ShutdownState
  | .cancelWorkerScope => { s with workerScopeCancelled := true }
  | .sleepSeconds n => { s with elapsedSeconds := s.elapsedSeconds + n }
  | .cancelRootScope => { s with rootScopeCancelled := true }

/-- Coordinator state at the moment the first signal arrives. -/
def shutdownInit : ShutdownState :=
  { elapsedSeconds := 0, workerScopeCancelled := false,
    rootScopeCancelled := false }

/-- All states the shutdown coordinator passes through, statement by
statement. -/
def shutdownTrace : List ShutdownState :=
  List.scanl shutdownStepRun shutdownInit shutdownProgram

/-- Worker-pool size (src/main.go:123-126): `runtime.NumCPU() - 1`, clamped
to 1 when that is zero or negative. -/
def noOfConcurrentJob (numCPU : Int) : Int :=
  let n := numCPU - 1
  if n ≤ 0 then 1 else n

/-- Capacity of the bounded job queue (src/main.go:129): the channel is
created with capacity `noOfConcurrentJob`. -/
def jobQueueCapacity (numCPU : Int) : Int :=
  noOfConcurrentJob numCPU

/-! Concrete example inputs used by witnesses and counterexamples. -/

/-- Sample source-object metadata. -/
def objAttrsSrc : ObjAttrs := { size := 10000, contentType := "text/csv" }

/-- Sample destination-object metadata after compression. -/
def objAttrsDst : ObjAttrs := { size := 2000, contentType := "text/csv" }

/-- A storage oracle for a fully successful compression run. -/
def compressEnvOk : CompressEnv :=
  { compressionLevel := 1
    srcReaderErr := none
    srcAttrs := .ok objAttrsSrc
    dstAttrsBefore := .error .notFound
    copyResult := .ok 10000
    dstAttrsAfter := .ok objAttrsDst }

/-- A sample Job as the dispatcher would construct it. -/
def jobEx : WorkflowContext :=
  { workerName := ""
    objectName := "report.csv"
    originalMessageAttributes :=
      [("bucketId", "b1"), ("objectId", "report.csv"),
        ("eventType", "OBJECT_FINALIZE")]
    originalMessageData := [1, 2, 3] }

/-- A sample message passing all four dispatcher checks. -/
def msgAcceptedEx : PubSubMessage :=
  { attributes :=
      [("bucketId", "b1"), ("objectId", "report.csv"),
        ("eventType", "OBJECT_FINALIZE")]
    data := [1, 2, 3] }

/-- A sample message for the wrong bucket. -/
def msgWrongBucketEx : PubSubMessage :=
  { attributes :=
      [("bucketId", "other-bucket"), ("objectId", "report.csv"),
        ("eventType", "OBJECT_FINALIZE")]
    data := [4, 5] }

/-- A worker-job oracle in which every step succeeds. -/
def jobEnvOk : WorkerJobEnv :=
  { newWorkflowErr := none, compressEnv := compressEnvOk, deleteErr := none }

/-! Helper lemmas. -/

/-- The gzip writer construction yields no writer exactly for levels outside
-2 through 9. -/
theorem gzipNewWriterLevel_eq_none (level : Int) :
    gzipNewWriterLevel level = none ↔ (level < -2 ∨ 9 < level) := by
  unfold gzipNewWriterLevel
  split
  · next h => simpa using h
  · next h => simpa using h

/-! Claim theorems. -/

/-- C6: upon the first interrupt or termination signal the coordinator
cancels the worker-pool scope while the root scope is still active, then
after a 7-second grace interval cancels the root scope; at no point of the
trace is the root scope cancelled while the worker-pool scope is not, and
every state with the root scope cancelled has at least 7 seconds elapsed. -/
theorem shutdown_cancels_workers_then_root :
    (∀ s ∈ shutdownTrace, s.rootScopeCancelled = true →
        s.workerScopeCancelled = true ∧ 7 ≤ s.elapsedSeconds)
    ∧ (∃ s ∈ shutdownTrace,
        s.workerScopeCancelled = true ∧ s.rootScopeCancelled = false)
    ∧ shutdownTrace.getLast? = some
        { elapsedSeconds := 7, workerScopeCancelled := true,
          rootScopeCancelled := true } := by
  decide

/-- C7: the worker count is the compute-unit count minus one, clamped to one
whenever that value is zero or negative, and the bounded job queue's
capacity equals the worker count. -/
theorem pool_size_and_capacity (numCPU : Int) :
    (numCPU - 1 ≤ 0 → noOfConcurrentJob numCPU = 1)
    ∧ (0 < numCPU - 1 → noOfConcurrentJob numCPU = numCPU - 1)
    ∧ jobQueueCapacity numCPU = noOfConcurrentJob numCPU := by
  refine ⟨fun h => ?_, fun h => ?_, rfl⟩
  · simp only [noOfConcurrentJob]
    rw [if_pos h]
  · simp only [noOfConcurrentJob]
    rw [if_neg (by omega)]

/-- Witness for C7 at one and at eight compute units. -/
theorem pool_size_and_capacity_witness :
    noOfConcurrentJob 1 = 1 ∧ noOfConcurrentJob 8 = 7 := by
  constructor
  · exact (pool_size_and_capacity 1).1 (by decide)
  · have h := (pool_size_and_capacity 8).2.1 (by decide)
    simpa using h

/-- C2: the failure handler republishes precisely when the cause is the
cancellation signal or unwraps (one level) to it — never for a deadline
expiry or an ordinary error — and any republish carries exactly the Job's
original attributes and payload with a 5-second deadline derived from the
root scope. -/
theorem republish_iff_cancellation (cdata : WorkflowContext) (cause : GoError) :
    ((handleWorkerError cdata cause).isSome = true ↔
      (cause = .canceled ∨ goUnwrap cause = some .canceled))
    ∧ (∀ a, handleWorkerError cdata cause = some a →
        a = { attributes := cdata.originalMessageAttributes
              payload := cdata.originalMessageData
              timeoutSeconds := 5
              parentScope := Scope.root }) := by
  constructor
  · unfold handleWorkerError
    split
    · next h => simpa using h
    · next h => simpa using h
  · intro a ha
    unfold handleWorkerError at ha
    split at ha
    · exact (Option.some.inj ha).symm
    · exact absurd ha (by simp)

/-- Witness for C2: a drain-cancelled copy error republishes; an identically
wrapped deadline expiry does not. -/
theorem republish_iff_cancellation_witness :
    (handleWorkerError jobEx
        (.wrap "failed to compress and upload object" .canceled)).isSome = true
    ∧ handleWorkerError jobEx
        (.wrap "failed to compress and upload object" .deadlineExceeded)
          = none := by
  constructor
  · exact (republish_iff_cancellation jobEx
      (.wrap "failed to compress and upload object" .canceled)).1.mpr
        (Or.inr rfl)
  · rfl

/-- C3: every received message is acknowledged exactly once; a message
failing any of the four checks is never enqueued, and a message passing all
four is enqueued exactly once, as the Job built from its attributes and
payload. -/
theorem dispatcher_ack_and_filter (src : String) (msg : PubSubMessage) :
    List.countP isAck (receiveHandler src msg) = 1
    ∧ (acceptedMessage src msg = false →
        List.filter isEnqueue (receiveHandler src msg) = [])
    ∧ (acceptedMessage src msg = true →
        List.filter isEnqueue (receiveHandler src msg)
          = [DispatchEvent.enqueue (jobOfMessage msg)]) := by
  by_cases h1 : lookupAttr msg.attributes "bucketId" = src
  · by_cases h2 : lookupAttr msg.attributes "objectId" = ""
    · simp [receiveHandler, acceptedMessage, h1, h2, isAck, isEnqueue,
        List.countP, List.countP.go]
    · by_cases h3 : strContains (lookupAttr msg.attributes "objectId")
        "dax-tmp" = true
      · simp [receiveHandler, acceptedMessage, h1, h2, h3, isAck, isEnqueue,
          List.countP, List.countP.go]
      · by_cases h4 : lookupAttr msg.attributes "eventType"
          = "OBJECT_FINALIZE"
        · simp [receiveHandler, acceptedMessage, jobOfMessage, h1, h2, h3,
            h4, isAck, isEnqueue, List.countP, List.countP.go]
        · simp [receiveHandler, acceptedMessage, h1, h2, h3, h4, isAck,
            isEnqueue, List.countP, List.countP.go]
  · simp [receiveHandler, acceptedMessage, h1, isAck, isEnqueue,
      List.countP, List.countP.go]

/-- Witness for C3: the wrong-bucket message is acknowledged without an
enqueue; the accepted message is enqueued once. -/
theorem dispatcher_ack_and_filter_witness :
    List.filter isEnqueue (receiveHandler "b1" msgWrongBucketEx) = []
    ∧ List.filter isEnqueue (receiveHandler "b1" msgAcceptedEx)
        = [DispatchEvent.enqueue (jobOfMessage msgAcceptedEx)] := by
  constructor
  · exact (dispatcher_ack_and_filter "b1" msgWrongBucketEx).2.1 (by decide)
  · exact (dispatcher_ack_and_filter "b1" msgAcceptedEx).2.2 (by decide)

/-- C4: for every accepted message the handler's trace is exactly an
acknowledgment followed by the enqueue of the constructed Job, so the
acknowledgment strictly precedes Job construction and push. -/
theorem ack_precedes_enqueue (src : String) (msg : PubSubMessage)
    (h : acceptedMessage src msg = true) :
    receiveHandler src msg
      = [DispatchEvent.ack, DispatchEvent.enqueue (jobOfMessage msg)] := by
  simp only [acceptedMessage, Bool.and_eq_true, beq_iff_eq, bne_iff_ne,
    ne_eq, Bool.not_eq_true'] at h
  obtain ⟨⟨⟨h1, h2⟩, h3⟩, h4⟩ := h
  simp [receiveHandler, jobOfMessage, h1, h2, h3, h4]

/-- Witness for C4 at a concrete accepted message. -/
theorem ack_precedes_enqueue_witness :
    receiveHandler "b1" msgAcceptedEx
      = [DispatchEvent.ack, DispatchEvent.enqueue (jobOfMessage msgAcceptedEx)] :=
  ack_precedes_enqueue "b1" msgAcceptedEx (by decide)

/-- C5: within one Job, the deletion call appears in the worker's trace only
when the compress step returned success, and then only strictly after the
compress call; on any compress failure no deletion is attempted. -/
theorem delete_only_after_successful_compress
    (id : Nat) (job : WorkflowContext) (env : WorkerJobEnv)
    (h : WorkerEvent.deleteCall ∈ runJob id job env) :
    (∃ n r, (Compress env.compressEnv).1 = CompressOutcome.ok n r)
    ∧ ∃ tail, runJob id job env
        = [WorkerEvent.newWorkflowCall, WorkerEvent.compressCall,
            WorkerEvent.deleteCall] ++ tail := by
  cases hnw : env.newWorkflowErr with
  | some e => simp [runJob, hnw] at h
  | none =>
    cases hc : (Compress env.compressEnv).1 with
    | nilPanic => simp [runJob, hnw, hc] at h
    | err e => simp [runJob, hnw, hc] at h
    | ok n r =>
      refine ⟨⟨n, r, rfl⟩, ?_⟩
      cases hd : Delete env.deleteErr with
      | some e =>
          exact ⟨[.handleErrorCall (workerContextData id job) e],
            by simp [runJob, hnw, hc, hd]⟩
      | none => exact ⟨[.logFinished], by simp [runJob, hnw, hc, hd]⟩

/-- Witness for C5: in a fully successful job the deletion call occurs and
follows the successful compress call. -/
theorem delete_only_after_successful_compress_witness :
    WorkerEvent.deleteCall ∈ runJob 1 jobEx jobEnvOk
    ∧ ∃ tail, runJob 1 jobEx jobEnvOk
        = [WorkerEvent.newWorkflowCall, WorkerEvent.compressCall,
            WorkerEvent.deleteCall] ++ tail := by
  have hmem : WorkerEvent.deleteCall ∈ runJob 1 jobEx jobEnvOk := by decide
  exact ⟨hmem,
    (delete_only_after_successful_compress 1 jobEx jobEnvOk hmem).2⟩

/-- C8: on a successful run, the reported compression ratio equals the
source size divided by the destination size whenever the destination size is
positive, and is zero otherwise. -/
theorem compression_ratio_formula (env : CompressEnv)
    (srcA dstA : ObjAttrs) (n : Int) (r : ℚ)
    (hs : env.srcAttrs = Except.ok srcA)
    (hd : env.dstAttrsAfter = Except.ok dstA)
    (hok : (Compress env).1 = CompressOutcome.ok n r) :
    (0 < dstA.size → r = (srcA.size : ℚ) / (dstA.size : ℚ))
    ∧ (dstA.size ≤ 0 → r = 0) := by
  obtain ⟨lvl, sre, sa, dab, cr, daa⟩ := env
  dsimp only at hs hd hok
  subst hs
  subst hd
  cases sre with
  | some e => simp [Compress] at hok
  | none =>
    by_cases hex : dstObjectExists dab = true
    · simp [Compress, hex] at hok
    · rw [Bool.not_eq_true] at hex
      cases hgz : gzipNewWriterLevel lvl with
      | none => simp [Compress, hex, hgz] at hok
      | some l =>
        cases cr with
        | error e => simp [Compress, hex, hgz] at hok
        | ok n2 =>
          simp [Compress, hex, hgz] at hok
          refine ⟨fun hpos => ?_, fun hnonpos => ?_⟩
          · rw [← hok.2, if_pos hpos]
          · rw [← hok.2, if_neg (by omega)]

/-- Witness for C8: a 10000-byte source compressed to 2000 bytes reports
ratio 5. -/
theorem compression_ratio_formula_witness :
    (Compress compressEnvOk).1 = CompressOutcome.ok 10000 5
    ∧ (5 : ℚ) = ((10000 : ℤ) : ℚ) / ((2000 : ℤ) : ℚ) := by
  have hok : (Compress compressEnvOk).1 = CompressOutcome.ok 10000 5 := by
    simp [Compress, compressEnvOk, objAttrsSrc, objAttrsDst, dstObjectExists,
      gzipNewWriterLevel]
    norm_num
  have h := (compression_ratio_formula compressEnvOk objAttrsSrc objAttrsDst
    10000 5 rfl rfl hok).1 (by norm_num [objAttrsDst])
  refine ⟨hok, ?_⟩
  simpa [objAttrsSrc, objAttrsDst] using h

/-- C9: the gzip-writer construction error is discarded, so `Compress` hits
the nil-pointer dereference exactly when execution reaches the writer
(source readable, source metadata available, destination absent) with a
compression level outside -2 through 9; for levels within -2 through 9 the
failure never occurs. -/
theorem nil_gzip_writer_panic (env : CompressEnv) :
    (Compress env).1 = CompressOutcome.nilPanic ↔
      (env.srcReaderErr = none
        ∧ (∃ a, env.srcAttrs = Except.ok a)
        ∧ dstObjectExists env.dstAttrsBefore = false
        ∧ (env.compressionLevel < -2 ∨ 9 < env.compressionLevel)) := by
  obtain ⟨lvl, sre, sa, dab, cr, daa⟩ := env
  dsimp only
  cases sre with
  | some e => simp [Compress]
  | none =>
    cases sa with
    | error e => simp [Compress]
    | ok a =>
      by_cases hex : dstObjectExists dab = true
      · simp [Compress, hex]
      · rw [Bool.not_eq_true] at hex
        cases hgz : gzipNewWriterLevel lvl with
        | none =>
            simp [Compress, hex, hgz]
            exact (gzipNewWriterLevel_eq_none lvl).mp hgz
        | some l =>
          have hrange : ¬(lvl < -2 ∨ 9 < lvl) := by
            intro hcon
            rw [(gzipNewWriterLevel_eq_none lvl).mpr hcon] at hgz
            cases hgz
          cases cr with
          | error e => simp [Compress, hex, hgz, hrange]
          | ok n2 =>
            cases daa with
            | error e => simp [Compress, hex, hgz, hrange]
            | ok dstA => simp [Compress, hex, hgz, hrange]

/-- Witness for C9: level 10 panics on an otherwise successful oracle;
level 1 does not. -/
theorem nil_gzip_writer_panic_witness :
    (Compress { compressEnvOk with compressionLevel := 10 }).1
      = CompressOutcome.nilPanic
    ∧ (Compress compressEnvOk).1 ≠ CompressOutcome.nilPanic := by
  constructor
  · exact (nil_gzip_writer_panic
      { compressEnvOk with compressionLevel := 10 }).mpr
        ⟨rfl, ⟨objAttrsSrc, rfl⟩, rfl, Or.inr (by decide)⟩
  · decide

/-- C10: the destination-existence guard holds iff the destination metadata
fetch succeeds; every fetch error — not only not-found — is treated as
non-existence, and under such an error (with a readable source) `Compress`
proceeds to open the destination writer. -/
theorem dst_exists_iff_attrs_fetch_ok (env : CompressEnv) (e : GoError) :
    (∀ rr : Except GoError ObjAttrs,
        dstObjectExists rr = true ↔ ∃ a, rr = Except.ok a)
    ∧ (env.dstAttrsBefore = Except.error e → env.srcReaderErr = none →
        (∃ a, env.srcAttrs = Except.ok a) →
        dstObjectExists env.dstAttrsBefore = false
          ∧ CompressEvent.openDstWriter ∈ (Compress env).2) := by
  constructor
  · intro rr
    cases rr <;> simp [dstObjectExists]
  · rintro hdb hre ⟨a, hsa⟩
    obtain ⟨lvl, sre, sa, dab, cr, daa⟩ := env
    dsimp only at hdb hre hsa ⊢
    subst hdb
    subst hre
    subst hsa
    refine ⟨rfl, ?_⟩
    cases hgz : gzipNewWriterLevel lvl with
    | none => simp [Compress, hgz, dstObjectExists]
    | some l =>
      cases cr with
      | error e2 => simp [Compress, hgz, dstObjectExists]
      | ok n2 =>
        cases daa with
        | error e3 => simp [Compress, hgz, dstObjectExists]
        | ok dstA => simp [Compress, hgz, dstObjectExists]

/-- Witness for C10: a temporarily unreadable destination (a non-not-found
metadata error) passes the guard and the writer is opened. -/
theorem dst_exists_iff_attrs_fetch_ok_witness :
    dstObjectExists
        ({ compressEnvOk with
            dstAttrsBefore :=
              Except.error (.errorString "metadata unavailable") }
          : CompressEnv).dstAttrsBefore = false
    ∧ CompressEvent.openDstWriter ∈
        (Compress { compressEnvOk with
            dstAttrsBefore :=
              Except.error (.errorString "metadata unavailable") }).2 :=
  (dst_exists_iff_attrs_fetch_ok
    { compressEnvOk with
        dstAttrsBefore := Except.error (.errorString "metadata unavailable") }
    (.errorString "metadata unavailable")).2 rfl rfl ⟨objAttrsSrc, rfl⟩

/-- A storage oracle in which the destination exists while the source is
gone, as after a fully completed prior run. -/
def compressEnvDstExistsSrcGone : CompressEnv :=
  { compressionLevel := -1
    srcReaderErr := some .notFound
    srcAttrs := .error .notFound
    dstAttrsBefore := .ok objAttrsDst
    copyResult := .ok 0
    dstAttrsAfter := .ok objAttrsDst }

/-- C1 counterexample: an invocation in which the destination exists (its
metadata fetch succeeds) but the source cannot be opened fails with the
source-open error, not the destination-already-exists error, because the
source is opened and its metadata fetched before the existence guard runs. -/
theorem dst_exists_guard_counterexample :
    dstObjectExists compressEnvDstExistsSrcGone.dstAttrsBefore = true
    ∧ (Compress compressEnvDstExistsSrcGone).1
        = CompressOutcome.err (.wrap "failed to open source object" .notFound)
    ∧ (Compress compressEnvDstExistsSrcGone).1
        ≠ CompressOutcome.err
            (.errorString "destination object exists already") := by
  refine ⟨rfl, rfl, ?_⟩
  decide

/-- C1 amended: whenever the destination metadata fetch succeeds (the code's
existence test) and the source object can be opened and its metadata read,
`Compress` fails with the destination-already-exists error; and whenever the
destination exists, no event of the invocation opens a writer on or writes
to the destination, so its prior content is unchanged. -/
theorem dst_exists_guard (env : CompressEnv)
    (hex : dstObjectExists env.dstAttrsBefore = true) :
    (env.srcReaderErr = none → (∃ a, env.srcAttrs = Except.ok a) →
      (Compress env).1
        = CompressOutcome.err
            (.errorString "destination object exists already"))
    ∧ ∀ ev ∈ (Compress env).2, writesDestination ev = false := by
  obtain ⟨lvl, sre, sa, dab, cr, daa⟩ := env
  dsimp only at hex ⊢
  constructor
  · rintro hre ⟨a, hsa⟩
    subst hre
    subst hsa
    simp [Compress, hex]
  · cases sre with
    | some e => simp [Compress, writesDestination]
    | none =>
      cases sa with
      | error e => simp [Compress, writesDestination]
      | ok a => simp [Compress, hex, writesDestination]

/-- Witness for C1 (amended): with an existing destination and a readable
source, the run fails with the destination-already-exists error and no
trace event writes the destination. -/
theorem dst_exists_guard_witness :
    (Compress { compressEnvOk with dstAttrsBefore := Except.ok objAttrsDst }).1
      = CompressOutcome.err (.errorString "destination object exists already")
    ∧ ∀ ev ∈ (Compress { compressEnvOk with
          dstAttrsBefore := Except.ok objAttrsDst }).2,
        writesDestination ev = false := by
  have h := dst_exists_guard
    { compressEnvOk with dstAttrsBefore := Except.ok objAttrsDst } rfl
  exact ⟨h.1 rfl ⟨objAttrsSrc, rfl⟩, h.2⟩

end GCSCompressor
